import Mathlib

/-
Verification of the coordinate-normalization and orchestration core of the
image-stitcher CLI (stitcher_cli.py), via a shallow embedding in Lean 4.

Modelling conventions:
* A raw coordinates table (the result of `pd.read_csv` on
  `<input_folder>/0/coordinates.csv`) is a header (list of column names)
  together with typed rows.  A missing `j` cell (NaN after read_csv) is
  modelled as `none : Option Int`.  The physical-position cells
  `x (mm)`, `y (mm)`, `z (um)` are only ever copied, never interpreted,
  so they are carried as opaque strings.
* The filesystem is an explicit state: a set of directories, an
  association list of readable raw CSV files, and an association list of
  written (cache) output files.  `os.makedirs(..., exist_ok=True)` inserts
  a directory; `new_df.to_csv(path)` inserts an output file.
* Python's built-in `hash` on strings is runtime-defined (and salted per
  process), so it enters the model as an explicit function parameter
  `pyHash : String → Nat`; the code's `& 0xffffffff` masking is modelled
  exactly.
* A raised Python exception is a pair of its class name and its message
  (`str(e)`).
-/

/-- One row of the raw coordinates table, as typed after `pd.read_csv`:
`region`, grid row `i`, grid column `j` (an empty cell reads as NaN,
modelled `none`), `z_level`, and the three physical-position cells. -/
structure RawRow where
  region : String
  i : Int
  j : Option Int
  z_level : Int
  x_mm : String
  y_mm : String
  z_um : String
deriving DecidableEq

/-- A raw CSV table: the header (`df.columns`) plus the data rows. -/
structure RawCsv where
  cols : List String
  rows : List RawRow
deriving DecidableEq

/-- One row of the processed (canonical) coordinates table built at
lines 128-135 of stitcher_cli.py: `region, fov, z_level, x (mm), y (mm), z (um)`. -/
structure CanonRow where
  region : String
  fov : Int
  z_level : Int
  x_mm : String
  y_mm : String
  z_um : String
deriving DecidableEq

/-- `series.max()` on a pandas series of integers.  On an empty series
pandas yields NaN; that case is never reached through a row of the
output (there are none), so the default `0` is arbitrary. -/
def seriesMax : List Int → Int
  | [] => 0
  | x :: xs => xs.foldl max x

/-- `df['j'].fillna(0)` applied to one row: a missing `j` becomes 0. -/
def jFill (r : RawRow) : Int := r.j.getD 0

/-- `df['j'].max()` after the `fillna(0)` at line 119. -/
def jMax (rows : List RawRow) : Int := seriesMax (rows.map jFill)

/-- `df['i'].max()`: the largest grid row of the table. -/
def iMax (rows : List RawRow) : Int := seriesMax (rows.map RawRow.i)

/-- Lines 118-135 of stitcher_cli.py: fill missing `j` with 0, compute
`max_j = df['j'].max() + 1` once over the whole table, give every row
`fov = i * max_j + j`, and project to the canonical column set. -/
def normalizeRows (rows : List RawRow) : List CanonRow :=
  let maxJ := jMax rows + 1
  rows.map fun r =>
    { region := r.region
      fov := r.i * maxJ + jFill r
      z_level := r.z_level
      x_mm := r.x_mm
      y_mm := r.y_mm
      z_um := r.z_um }

/-- The `fov` column of the processed table. -/
def fovList (rows : List RawRow) : List Int := (normalizeRows rows).map CanonRow.fov

/-- The required columns checked at line 113. -/
def requiredColumns : List String :=
  ["region", "i", "j", "z_level", "x (mm)", "y (mm)", "z (um)"]

/-- The loop at lines 114-116 raises on the first required column missing
from the header, in the order of `requiredColumns`. -/
def firstMissingColumn (cols : List String) : Option String :=
  requiredColumns.find? fun c => !(cols.contains c)

/-- A raised Python exception: its class name and its message (`str(e)`). -/
structure PyExc where
  kind : String
  msg : String
deriving DecidableEq

/-- The filesystem state touched by `process_coordinates_file`. -/
structure FS where
  dirs : List String
  rawFiles : List (String × RawCsv)
  outFiles : List (String × List CanonRow)
deriving DecidableEq

/-- `os.path.join` for the relative components used by the program. -/
def joinPath (a b : String) : String := a ++ "/" ++ b

/-- `os.makedirs(d, exist_ok=True)`. -/
def makedirs (fs : FS) (d : String) : FS :=
  if d ∈ fs.dirs then fs else { fs with dirs := d :: fs.dirs }

/-- Line 97-99: the per-user processed-data directory. -/
def processedDirOf (home : String) : String := joinPath home ".image_stitcher_processed"

/-- Lines 103-104: the cache file name derived from the 32-bit-masked
hash of the input folder string. -/
def cacheFileName (hashVal : Nat) : String :=
  "coordinates_processed_" ++ toString (hashVal &&& 0xffffffff) ++ ".csv"

/-- The full cache path for a given home directory, hash function and
input folder. -/
def cachePath (home : String) (pyHash : String → Nat) (inputFolder : String) : String :=
  joinPath (processedDirOf home) (cacheFileName (pyHash inputFolder))

/-- Shallow embedding of `process_coordinates_file` (lines 88-144):
compute the input path, create the processed directory, derive the cache
path, fail with `FileNotFoundError` if the input file is absent, fail
with `ValueError` on the first missing required column, otherwise write
the normalized table to the cache path and return that path. -/
def processCoordinatesFile (home : String) (pyHash : String → Nat)
    (inputFolder : String) (fs : FS) : FS × Except PyExc String :=
  let inputCoordsFile := joinPath (joinPath inputFolder "0") "coordinates.csv"
  let fs1 := makedirs fs (processedDirOf home)
  let outputCoordsFile := cachePath home pyHash inputFolder
  match fs1.rawFiles.lookup inputCoordsFile with
  | none =>
      (fs1, .error ⟨"FileNotFoundError", "Coordinates file not found: " ++ inputCoordsFile⟩)
  | some df =>
      match firstMissingColumn df.cols with
      | some col =>
          (fs1, .error ⟨"ValueError",
            "Missing required column \x27" ++ col ++ "\x27 in coordinates.csv"⟩)
      | none =>
          ({ fs1 with outFiles := (outputCoordsFile, normalizeRows df.rows) :: fs1.outFiles },
           .ok outputCoordsFile)

/-- Helper to build a raw row with fixed physical-position cells. -/
def mkRawRow (region : String) (a : Int) (b : Option Int) (z : Int) : RawRow :=
  { region := region, i := a, j := b, z_level := z, x_mm := "1.0", y_mm := "1.0", z_um := "0" }

/-- Modelled from the spec: `StitchingParameters` lives in the external
`parameters` module (not part of this repository checkout); the spec's
§3 and §4.2 define it as an immutable record of ten discrete fields. -/
structure StitchingParameters where
  input_folder : String
  output_format : String
  apply_flatfield : Bool
  use_registration : Bool
  registration_channel : Option String
  registration_z_level : Int
  scan_pattern : String
  merge_timepoints : Bool
  merge_hcs_regions : Bool
  dynamic_registration : Bool
deriving DecidableEq

/-- The same ten discrete values, as supplied to a constructor. -/
structure ParamFields where
  input_folder : String
  output_format : String
  apply_flatfield : Bool
  use_registration : Bool
  registration_channel : Option String
  registration_z_level : Int
  scan_pattern : String
  merge_timepoints : Bool
  merge_hcs_regions : Bool
  dynamic_registration : Bool
deriving DecidableEq

/-- Modelled from the spec: a `ConfigError` cites the offending field. -/
structure ConfigError where
  field : String
deriving DecidableEq

/-- The closed enumeration of output formats. -/
def outputFormats : List String := [".ome.zarr", ".ome.tiff"]

/-- A value of a serialized parameter document (a flat JSON object). -/
inductive JsonValue where
  | str (s : String)
  | bool (b : Bool)
  | int (n : Int)
  | null
deriving DecidableEq

/-- Modelled from the spec: `fromFields(discreteValues)` (§4.2).  It
fails with a `ConfigError` citing the offending field on an
out-of-enumeration `output_format`, a non-existent `input_folder`
(existence supplied by the ambient filesystem predicate), or a negative
`registration_z_level`; no other validation is performed. -/
def fromFields (folderExists : String → Bool) (v : ParamFields) :
    Except ConfigError StitchingParameters :=
  if ¬ outputFormats.contains v.output_format then .error ⟨"output_format"⟩
  else if ¬ folderExists v.input_folder then .error ⟨"input_folder"⟩
  else if v.registration_z_level < 0 then .error ⟨"registration_z_level"⟩
  else .ok
    { input_folder := v.input_folder
      output_format := v.output_format
      apply_flatfield := v.apply_flatfield
      use_registration := v.use_registration
      registration_channel := v.registration_channel
      registration_z_level := v.registration_z_level
      scan_pattern := v.scan_pattern
      merge_timepoints := v.merge_timepoints
      merge_hcs_regions := v.merge_hcs_regions
      dynamic_registration := v.dynamic_registration }

/-- Modelled from the spec: `serialize(V)` produces a document whose keys
match the Parameter Model's discrete fields (§6). -/
def serializeFields (v : ParamFields) : List (String × JsonValue) :=
  [("input_folder", .str v.input_folder),
   ("output_format", .str v.output_format),
   ("apply_flatfield", .bool v.apply_flatfield),
   ("use_registration", .bool v.use_registration),
   ("registration_channel",
     match v.registration_channel with
     | none => .null
     | some c => .str c),
   ("registration_z_level", .int v.registration_z_level),
   ("scan_pattern", .str v.scan_pattern),
   ("merge_timepoints", .bool v.merge_timepoints),
   ("merge_hcs_regions", .bool v.merge_hcs_regions),
   ("dynamic_registration", .bool v.dynamic_registration)]

/-- Read a string-valued key of a document. -/
def getStr (doc : List (String × JsonValue)) (k : String) : Option String :=
  match doc.lookup k with
  | some (.str s) => some s
  | _ => none

/-- Read a boolean-valued key of a document. -/
def getBool (doc : List (String × JsonValue)) (k : String) : Option Bool :=
  match doc.lookup k with
  | some (.bool b) => some b
  | _ => none

/-- Read an integer-valued key of a document. -/
def getInt (doc : List (String × JsonValue)) (k : String) : Option Int :=
  match doc.lookup k with
  | some (.int n) => some n
  | _ => none

/-- Read an optional-string key of a document (`null` means absent). -/
def getOptStr (doc : List (String × JsonValue)) (k : String) : Option (Option String) :=
  match doc.lookup k with
  | some (.str s) => some (some s)
  | some .null => some none
  | _ => none

/-- Extract the ten discrete fields back out of a serialized document. -/
def parseFields (doc : List (String × JsonValue)) : Option ParamFields := do
  let input_folder ← getStr doc "input_folder"
  let output_format ← getStr doc "output_format"
  let apply_flatfield ← getBool doc "apply_flatfield"
  let use_registration ← getBool doc "use_registration"
  let registration_channel ← getOptStr doc "registration_channel"
  let registration_z_level ← getInt doc "registration_z_level"
  let scan_pattern ← getStr doc "scan_pattern"
  let merge_timepoints ← getBool doc "merge_timepoints"
  let merge_hcs_regions ← getBool doc "merge_hcs_regions"
  let dynamic_registration ← getBool doc "dynamic_registration"
  pure
    { input_folder := input_folder
      output_format := output_format
      apply_flatfield := apply_flatfield
      use_registration := use_registration
      registration_channel := registration_channel
      registration_z_level := registration_z_level
      scan_pattern := scan_pattern
      merge_timepoints := merge_timepoints
      merge_hcs_regions := merge_hcs_regions
      dynamic_registration := dynamic_registration }

/-- Modelled from the spec: `fromDocument` (§4.2) reads the serialized
document and funnels the extracted fields into the same construction as
`fromFields`. -/
def fromDocument (folderExists : String → Bool) (doc : List (String × JsonValue)) :
    Except ConfigError StitchingParameters :=
  match parseFields doc with
  | none => .error ⟨"document"⟩
  | some v => fromFields folderExists v

/-- What `main` makes observable to its caller: the process exit code,
the line printed to stderr (if any), and how many times the stitching
engine was invoked. -/
structure MainOutcome where
  exitCode : Nat
  stderrLine : Option String
  engineRuns : Nat
deriving DecidableEq

/-- Shallow embedding of `main` (lines 146-179): the whole body runs
under one `try`; any exception is caught, printed as `"Error: " + str(e)`
on stderr, and turned into exit status 1.  Parameter construction and
the engine are external collaborators, so they enter as parameters. -/
def mainModel (home : String) (pyHash : String → Nat) (inputFolder : String) (fs : FS)
    (paramsResult : Except PyExc StitchingParameters)
    (engineRun : StitchingParameters → Except PyExc Unit) : FS × MainOutcome :=
  let fs1 := (processCoordinatesFile home pyHash inputFolder fs).1
  match (processCoordinatesFile home pyHash inputFolder fs).2 with
  | .error e => (fs1, ⟨1, some ("Error: " ++ e.msg), 0⟩)
  | .ok _ =>
      match paramsResult with
      | .error e => (fs1, ⟨1, some ("Error: " ++ e.msg), 0⟩)
      | .ok params =>
          match engineRun params with
          | .error e => (fs1, ⟨1, some ("Error: " ++ e.msg), 1⟩)
          | .ok _ => (fs1, ⟨0, none, 1⟩)

/-- The full rectangular grid of `(i, j)` pairs with `i < ni`, `j < nj`,
in row-major order. -/
def gridPairsN (ni nj : Nat) : List (Nat × Nat) :=
  (List.range ni).flatMap fun a => (List.range nj).map fun b => (a, b)

/-- The same grid with integer coordinates, as they appear in a table. -/
def gridPairs (ni nj : Nat) : List (Int × Int) :=
  (gridPairsN ni nj).map fun p => (Int.ofNat p.1, Int.ofNat p.2)

theorem makedirs_rawFiles (fs : FS) (d : String) : (makedirs fs d).rawFiles = fs.rawFiles := by
  unfold makedirs
  split <;> rfl

theorem makedirs_outFiles (fs : FS) (d : String) : (makedirs fs d).outFiles = fs.outFiles := by
  unfold makedirs
  split <;> rfl

theorem mem_makedirs_self (fs : FS) (d : String) : d ∈ (makedirs fs d).dirs := by
  unfold makedirs
  split
  · assumption
  · exact List.mem_cons_self _ _

/-- C1: for every input coordinate table containing the required columns,
normalization produces exactly one output row per input row; row `k`
carries `fov = i * max_j + j`, where `max_j` is computed once over the
whole table as the maximum of the filled `j` column plus 1, and a row
whose `j` is absent is treated as `j = 0`, so its `fov` equals
`i * max_j`. -/
theorem c1_normalize_fov_per_row (df : RawCsv)
    (_hcols : firstMissingColumn df.cols = none) :
    (normalizeRows df.rows).length = df.rows.length ∧
    ∀ k : Nat, ∀ r : RawRow, df.rows[k]? = some r →
      (normalizeRows df.rows)[k]? = some
        { region := r.region, fov := r.i * (jMax df.rows + 1) + jFill r,
          z_level := r.z_level, x_mm := r.x_mm, y_mm := r.y_mm, z_um := r.z_um } ∧
      (r.j = none → r.i * (jMax df.rows + 1) + jFill r = r.i * (jMax df.rows + 1)) := by
  refine ⟨by simp [normalizeRows], ?_⟩
  intro k r hk
  constructor
  · simp [normalizeRows, List.getElem?_map, hk]
  · intro hnone
    simp [jFill, hnone]

/-- Concrete two-row table exercising both a present and an absent `j`. -/
def c1W : RawCsv :=
  { cols := requiredColumns
    rows := [mkRawRow "A1" 2 none 0, mkRawRow "A1" 0 (some 1) 0] }

/-- Witness for C1 at a concrete table whose second row has `j` present
and whose first row has `j` absent. -/
theorem c1_normalize_fov_per_row_witness :
    firstMissingColumn c1W.cols = none ∧
    ((normalizeRows c1W.rows).length = c1W.rows.length ∧
     ∀ k : Nat, ∀ r : RawRow, c1W.rows[k]? = some r →
       (normalizeRows c1W.rows)[k]? = some
         { region := r.region, fov := r.i * (jMax c1W.rows + 1) + jFill r,
           z_level := r.z_level, x_mm := r.x_mm, y_mm := r.y_mm, z_um := r.z_um } ∧
       (r.j = none → r.i * (jMax c1W.rows + 1) + jFill r = r.i * (jMax c1W.rows + 1))) :=
  ⟨by decide, c1_normalize_fov_per_row c1W (by decide)⟩

/-- C3: normalization is deterministic; the canonical table is a pure
function of the input table, so two runs on identical inputs produce
identical outputs (same rows, same order, same values). -/
theorem c3_normalize_deterministic (t1 t2 : List RawRow) (h : t1 = t2) :
    normalizeRows t1 = normalizeRows t2 := by
  rw [h]

/-- Witness for C3 at a concrete one-row table. -/
theorem c3_normalize_deterministic_witness :
    [mkRawRow "A1" 0 (some 0) 0] = [mkRawRow "A1" 0 (some 0) 0] ∧
    normalizeRows [mkRawRow "A1" 0 (some 0) 0] = normalizeRows [mkRawRow "A1" 0 (some 0) 0] :=
  ⟨rfl, c3_normalize_deterministic _ _ rfl⟩

/-- C5: when the raw coordinates file `<input_folder>/0/coordinates.csv`
is absent, `process_coordinates_file` fails with a `FileNotFoundError`
whose message names the expected path, and writes no cache file. -/
theorem c5_missing_file_error (home : String) (pyHash : String → Nat)
    (inputFolder : String) (fs : FS)
    (h : fs.rawFiles.lookup (joinPath (joinPath inputFolder "0") "coordinates.csv") = none) :
    (processCoordinatesFile home pyHash inputFolder fs).2 =
      .error ⟨"FileNotFoundError",
        "Coordinates file not found: " ++ joinPath (joinPath inputFolder "0") "coordinates.csv"⟩ ∧
    (processCoordinatesFile home pyHash inputFolder fs).1.outFiles = fs.outFiles := by
  simp [processCoordinatesFile, makedirs_rawFiles, makedirs_outFiles, h]

/-- The empty filesystem. -/
def fsEmpty : FS := ⟨[], [], []⟩

/-- Witness for C5 on the empty filesystem. -/
theorem c5_missing_file_error_witness :
    fsEmpty.rawFiles.lookup (joinPath (joinPath "/in" "0") "coordinates.csv") = none ∧
    ((processCoordinatesFile "/h" (fun _ => 0) "/in" fsEmpty).2 =
       .error ⟨"FileNotFoundError",
         "Coordinates file not found: " ++ joinPath (joinPath "/in" "0") "coordinates.csv"⟩ ∧
     (processCoordinatesFile "/h" (fun _ => 0) "/in" fsEmpty).1.outFiles = fsEmpty.outFiles) :=
  ⟨rfl, c5_missing_file_error "/h" (fun _ => 0) "/in" fsEmpty rfl⟩

/-- C6: when a required column is absent from the raw table's header,
`process_coordinates_file` fails with a `ValueError` naming a missing
required column (the first one missing, in required order), and writes
no cache file. -/
theorem c6_missing_column_error (home : String) (pyHash : String → Nat)
    (inputFolder : String) (fs : FS) (df : RawCsv) (col : String)
    (hfile : fs.rawFiles.lookup (joinPath (joinPath inputFolder "0") "coordinates.csv") = some df)
    (hcol : firstMissingColumn df.cols = some col) :
    (processCoordinatesFile home pyHash inputFolder fs).2 =
      .error ⟨"ValueError",
        "Missing required column \x27" ++ col ++ "\x27 in coordinates.csv"⟩ ∧
    col ∈ requiredColumns ∧ col ∉ df.cols ∧
    (processCoordinatesFile home pyHash inputFolder fs).1.outFiles = fs.outFiles := by
  have hfind := hcol
  unfold firstMissingColumn at hfind
  have hmem : col ∈ requiredColumns := List.mem_of_find?_eq_some hfind
  have hnot : col ∉ df.cols := by
    have hp := List.find?_some hfind
    simpa using hp
  refine ⟨?_, hmem, hnot, ?_⟩
  · simp only [processCoordinatesFile, makedirs_rawFiles, hfile, hcol]
  · simp only [processCoordinatesFile, makedirs_rawFiles, hfile, hcol]
    exact makedirs_outFiles fs _

/-- A filesystem holding a raw coordinates file whose header lacks `i`. -/
def c6Fs : FS := ⟨[], [("/in/0/coordinates.csv", ⟨["region"], []⟩)], []⟩

/-- Witness for C6 on a header containing only `region`. -/
theorem c6_missing_column_error_witness :
    c6Fs.rawFiles.lookup (joinPath (joinPath "/in" "0") "coordinates.csv") =
      some ⟨["region"], []⟩ ∧
    firstMissingColumn ["region"] = some "i" ∧
    ((processCoordinatesFile "/h" (fun _ => 0) "/in" c6Fs).2 =
       .error ⟨"ValueError",
         "Missing required column \x27i\x27 in coordinates.csv"⟩ ∧
     "i" ∈ requiredColumns ∧ "i" ∉ (["region"] : List String) ∧
     (processCoordinatesFile "/h" (fun _ => 0) "/in" c6Fs).1.outFiles = c6Fs.outFiles) :=
  ⟨by decide, by decide,
   c6_missing_column_error "/h" (fun _ => 0) "/in" c6Fs ⟨["region"], []⟩ "i"
     (by decide) (by decide)⟩

/-- C10: `process_coordinates_file` creates the per-user processed-data
directory before the existence check on the raw coordinates file, so the
directory is present in the final filesystem state on every path, while
on every error path no cache file has been written. -/
theorem c10_processed_dir_created_on_error (home : String) (pyHash : String → Nat)
    (inputFolder : String) (fs : FS) :
    processedDirOf home ∈ (processCoordinatesFile home pyHash inputFolder fs).1.dirs ∧
    ∀ e : PyExc, (processCoordinatesFile home pyHash inputFolder fs).2 = .error e →
      (processCoordinatesFile home pyHash inputFolder fs).1.outFiles = fs.outFiles := by
  cases hl : List.lookup (joinPath (joinPath inputFolder "0") "coordinates.csv") fs.rawFiles with
  | none =>
      constructor
      · simp only [processCoordinatesFile, makedirs_rawFiles, hl]
        exact mem_makedirs_self fs _
      · intro e he
        simp only [processCoordinatesFile, makedirs_rawFiles, hl]
        exact makedirs_outFiles fs _
  | some df =>
      cases hc : firstMissingColumn df.cols with
      | some col =>
          constructor
          · simp only [processCoordinatesFile, makedirs_rawFiles, hl, hc]
            exact mem_makedirs_self fs _
          · intro e he
            simp only [processCoordinatesFile, makedirs_rawFiles, hl, hc]
            exact makedirs_outFiles fs _
      | none =>
          constructor
          · simp only [processCoordinatesFile, makedirs_rawFiles, hl, hc]
            exact mem_makedirs_self fs _
          · intro e he
            simp only [processCoordinatesFile, makedirs_rawFiles, hl, hc] at he
            exact absurd he (by simp)

/-- Witness for C10: on the empty filesystem the run fails with
`FileNotFoundError`, yet the processed directory has been created and no
cache file written. -/
theorem c10_processed_dir_created_on_error_witness :
    processedDirOf "/h" ∈ (processCoordinatesFile "/h" (fun _ => 0) "/in" fsEmpty).1.dirs ∧
    (processCoordinatesFile "/h" (fun _ => 0) "/in" fsEmpty).1.outFiles = fsEmpty.outFiles :=
  ⟨(c10_processed_dir_created_on_error "/h" (fun _ => 0) "/in" fsEmpty).1,
   (c10_processed_dir_created_on_error "/h" (fun _ => 0) "/in" fsEmpty).2
     ⟨"FileNotFoundError",
      "Coordinates file not found: " ++ joinPath (joinPath "/in" "0") "coordinates.csv"⟩
     rfl⟩

theorem gridPairsN_map_fov (ni nj : Nat) :
    (gridPairsN ni nj).map (fun p => p.1 * nj + p.2) = List.range (ni * nj) := by
  induction ni with
  | zero => simp [gridPairsN]
  | succ n ih =>
      have hmul : (n + 1) * nj = n * nj + nj := by ring
      simp only [gridPairsN] at ih ⊢
      rw [List.range_succ, List.flatMap_append, List.map_append, ih, hmul,
        List.range_add]
      simp only [List.flatMap_cons, List.flatMap_nil, List.append_nil, List.map_map]
      rfl

theorem mem_map_ofNat_range (N : Nat) (v : Int) :
    v ∈ (List.range N).map Int.ofNat ↔ 0 ≤ v ∧ v < Int.ofNat N := by
  simp only [List.mem_map, List.mem_range, Int.ofNat_eq_natCast]
  constructor
  · rintro ⟨m, hm, rfl⟩
    refine ⟨?_, ?_⟩ <;> omega
  · rintro ⟨h0, hv⟩
    refine ⟨v.toNat, ?_, ?_⟩ <;> omega

theorem fovList_eq_map (t : List RawRow) :
    fovList t = t.map fun r => r.i * (jMax t + 1) + jFill r := by
  simp only [fovList, normalizeRows, List.map_map]
  rfl

theorem gridPairs_map_fov (ni nj : Nat) :
    (gridPairs ni nj).map (fun p => p.1 * Int.ofNat nj + p.2) =
      (List.range (ni * nj)).map Int.ofNat := by
  rw [gridPairs, List.map_map, ← gridPairsN_map_fov ni nj, List.map_map]
  refine List.map_congr_left ?_
  intro p _
  simp only [Function.comp_apply, Int.ofNat_eq_natCast]
  push_cast
  ring

/-- C2 (amended): if the multiset of `(i, j)` pairs of the table is
exactly the full rectangular grid `{0..ni-1} × {0..nj-1}`, each pair
occurring exactly once, with `nj` matching the code's globally computed
`max_j`, then the produced `fov` values are exactly
`{0, …, ni * nj - 1}` with no duplicates.  (With `ni = max_i + 1` and
`nj = max_j`, the bound `ni * nj` is the claim's `(max_i + 1) * max_j`.) -/
theorem c2_grid_fov_range (t : List RawRow) (ni nj : Nat)
    (hnj : Int.ofNat nj = jMax t + 1)
    (hperm : (t.map fun r => (r.i, jFill r)).Perm (gridPairs ni nj)) :
    (fovList t).Nodup ∧
    ∀ v : Int, v ∈ fovList t ↔ 0 ≤ v ∧ v < Int.ofNat (ni * nj) := by
  have hmap : fovList t =
      (t.map fun r => (r.i, jFill r)).map (fun p => p.1 * Int.ofNat nj + p.2) := by
    rw [fovList_eq_map, List.map_map]
    refine List.map_congr_left ?_
    intro r _
    simp only [Function.comp_apply]
    rw [hnj]
  have hp2 := hperm.map (fun p => p.1 * Int.ofNat nj + p.2)
  rw [gridPairs_map_fov] at hp2
  rw [hmap]
  constructor
  · refine hp2.nodup_iff.mpr ?_
    exact (List.nodup_range _).map fun a b hab => Int.ofNat.inj hab
  · intro v
    exact hp2.mem_iff.trans (mem_map_ofNat_range _ v)

/-- A 2-by-2 grid table: each `(i, j)` in `{0,1} × {0,1}` appears once. -/
def c2Grid : List RawRow :=
  [mkRawRow "A1" 0 (some 0) 0, mkRawRow "A1" 0 (some 1) 0,
   mkRawRow "A1" 1 (some 0) 0, mkRawRow "A1" 1 (some 1) 0]

/-- Witness for the amended C2 on the concrete 2-by-2 grid. -/
theorem c2_grid_fov_range_witness :
    (Int.ofNat 2 = jMax c2Grid + 1 ∧
      (c2Grid.map fun r => (r.i, jFill r)).Perm (gridPairs 2 2)) ∧
    ((fovList c2Grid).Nodup ∧
      ∀ v : Int, v ∈ fovList c2Grid ↔ 0 ≤ v ∧ v < Int.ofNat (2 * 2)) :=
  ⟨⟨by decide, by decide⟩, c2_grid_fov_range c2Grid 2 2 (by decide) (by decide)⟩

/-- The table refuting C2 as stated: both rows have `j` present, the `j`
values `{0,1}` are dense over `[0, max_j)` with `max_j = 2`, the `i`
values `{0,1}` are dense over `[0, max_i]` with `max_i = 1`, yet the
`fov` values are `[0, 3]`, not `{0, 1, 2, 3}`. -/
def c2Bad : List RawRow :=
  [mkRawRow "A1" 0 (some 0) 0, mkRawRow "A1" 1 (some 1) 0]

/-- Counterexample to C2 as stated: separate density of the `i` values
and of the `j` values does not make the produced `fov` set equal to
`{0, …, (max_i + 1) * max_j - 1}`. -/
theorem c2_dense_claim_counterexample :
    (∀ r ∈ c2Bad, (r.j).isSome) ∧
    (∀ b : Int, 0 ≤ b → b < jMax c2Bad + 1 → ∃ r ∈ c2Bad, jFill r = b) ∧
    (∀ a : Int, 0 ≤ a → a ≤ iMax c2Bad → ∃ r ∈ c2Bad, r.i = a) ∧
    ¬ ((fovList c2Bad).Nodup ∧
       ∀ v : Int, v ∈ fovList c2Bad ↔
         0 ≤ v ∧ v < (iMax c2Bad + 1) * (jMax c2Bad + 1)) := by
  have hj : jMax c2Bad = 1 := by decide
  have hi : iMax c2Bad = 1 := by decide
  refine ⟨by decide, ?_, ?_, ?_⟩
  · intro b hb0 hb1
    rw [hj] at hb1
    interval_cases b
    · decide
    · decide
  · intro a ha0 ha1
    rw [hi] at ha1
    interval_cases a
    · decide
    · decide
  · rintro ⟨-, hall⟩
    have h1 : (1 : Int) ∈ fovList c2Bad := by
      refine (hall 1).mpr ?_
      rw [hi, hj]
      exact ⟨by decide, by decide⟩
    exact absurd h1 (by decide)

theorem replicate_string_injective :
    Function.Injective (fun n : Nat => String.mk (List.replicate n 'a')) := by
  intro m n h
  have hlen := congrArg (fun s : String => s.data.length) h
  simpa using hlen

theorem cacheFileName_eq_of_masked_eq (h1 h2 : Nat)
    (h : h1 &&& 0xffffffff = h2 &&& 0xffffffff) :
    cacheFileName h1 = cacheFileName h2 := by
  unfold cacheFileName
  rw [h]

theorem cacheFileName_collision (hash : String → Nat) :
    ∃ s1 s2 : String, s1 ≠ s2 ∧ cacheFileName (hash s1) = cacheFileName (hash s2) := by
  have hb : ∀ s : String, hash s &&& 0xffffffff < 2 ^ 32 := by
    intro s
    have := Nat.and_le_right (n := hash s) (m := 0xffffffff)
    omega
  let f : Nat → String := fun n => String.mk (List.replicate n 'a')
  let g : Nat → Fin (2 ^ 32) := fun n => ⟨hash (f n) &&& 0xffffffff, hb (f n)⟩
  obtain ⟨m, n, hmn, hg⟩ := Finite.exists_ne_map_eq_of_infinite g
  refine ⟨f m, f n, fun he => hmn (replicate_string_injective he), ?_⟩
  exact cacheFileName_eq_of_masked_eq _ _ (congrArg Fin.val hg)

/-- Counterexample to C4: no hash function whatsoever can make the cache
file-name derivation collision-resistant, because the derivation masks
any hash value to 32 bits, so distinct input folders must collide; in
particular the program's actual string hash cannot be collision-resistant. -/
theorem c4_cache_derivation_counterexample :
    ¬ ∃ hash : String → Nat,
        Function.Injective fun inputFolder => cacheFileName (hash inputFolder) := by
  rintro ⟨hash, hinj⟩
  obtain ⟨s1, s2, hne, he⟩ := cacheFileName_collision hash
  exact hne (hinj he)

/-- C4 (amended): for a fixed string-hash function (i.e. within one
interpreter process), the cache path is a deterministic function of the
input folder, but the 32-bit-masked derivation is not collision-resistant;
for every hash function there exist two distinct input folders mapped to
the same cache file. -/
theorem c4_cache_path_amended (home : String) (hash : String → Nat) :
    (∀ f1 f2 : String, f1 = f2 → cachePath home hash f1 = cachePath home hash f2) ∧
    ∃ s1 s2 : String, s1 ≠ s2 ∧ cachePath home hash s1 = cachePath home hash s2 := by
  constructor
  · intro f1 f2 h
    rw [h]
  · obtain ⟨s1, s2, hne, he⟩ := cacheFileName_collision hash
    refine ⟨s1, s2, hne, ?_⟩
    unfold cachePath
    rw [he]

/-- Witness for the amended C4 at a concrete home directory and a
concrete (stand-in) hash function. -/
theorem c4_cache_path_amended_witness :
    cachePath "/home/u" (fun s => s.length) "/data/x" =
      cachePath "/home/u" (fun s => s.length) "/data/x" ∧
    ∃ s1 s2 : String, s1 ≠ s2 ∧
      cachePath "/home/u" (fun s => s.length) s1 =
        cachePath "/home/u" (fun s => s.length) s2 :=
  ⟨(c4_cache_path_amended "/home/u" (fun s => s.length)).1 _ _ rfl,
   (c4_cache_path_amended "/home/u" (fun s => s.length)).2⟩

/-- C8: for every discrete-value set, constructing the Parameter Model
from the discrete fields and constructing it from the serialized
document of those same fields produce field-for-field equal results
(both succeeding with equal objects, or failing identically). -/
theorem c8_fromFields_fromDocument_equiv (folderExists : String → Bool)
    (v : ParamFields) :
    fromDocument folderExists (serializeFields v) = fromFields folderExists v := by
  have hparse : parseFields (serializeFields v) = some v := by
    cases v with
    | mk input_folder output_format apply_flatfield use_registration
        registration_channel registration_z_level scan_pattern
        merge_timepoints merge_hcs_regions dynamic_registration =>
      cases registration_channel <;> rfl
  unfold fromDocument
  rw [hparse]

/-- A filesystem holding a well-formed raw coordinates file for `/in`. -/
def c9Fs : FS :=
  ⟨[], [("/in/0/coordinates.csv", ⟨requiredColumns, [mkRawRow "A1" 0 (some 0) 0]⟩)], []⟩

/-- A concrete parameter object for the orchestration runs. -/
def c9Params : StitchingParameters :=
  ⟨"/in", ".ome.zarr", false, false, none, 0, "Unidirectional", false, false, false⟩

/-- Counterexample to C9: `main` catches every exception and surfaces
only exit status 1 with the printed message `str(e)`; two engine
failures of different kinds but equal messages produce identical
observable outcomes, so the original failure kind is not preserved. -/
theorem c9_engine_failure_kind_counterexample :
    ("EngineError" : String) ≠ "RuntimeError" ∧
    mainModel "/h" (fun _ => 0) "/in" c9Fs (.ok c9Params)
        (fun _ => .error ⟨"EngineError", "boom"⟩) =
      mainModel "/h" (fun _ => 0) "/in" c9Fs (.ok c9Params)
        (fun _ => .error ⟨"RuntimeError", "boom"⟩) :=
  ⟨by decide, rfl⟩

/-- C9 (amended): the orchestrator never invokes the engine more than
once (no retry) and an engine failure is fatal — the run ends with exit
status 1 and the failure's message surfaced as `"Error: " + str(e)` —
but only the message survives; the failure kind is not part of the
outcome visible to the caller. -/
theorem c9_engine_failure_fatal_amended (home : String) (pyHash : String → Nat)
    (inputFolder : String) (fs : FS) (params : StitchingParameters) (e : PyExc)
    (s : String)
    (hok : (processCoordinatesFile home pyHash inputFolder fs).2 = .ok s) :
    (mainModel home pyHash inputFolder fs (.ok params) (fun _ => .error e)).2 =
      ⟨1, some ("Error: " ++ e.msg), 1⟩ ∧
    ∀ (pr : Except PyExc StitchingParameters)
      (eng : StitchingParameters → Except PyExc Unit),
      (mainModel home pyHash inputFolder fs pr eng).2.engineRuns ≤ 1 := by
  constructor
  · simp only [mainModel, hok]
  · intro pr eng
    simp only [mainModel, hok]
    cases pr with
    | error e' => simp
    | ok p =>
        cases heng : eng p with
        | error e' => simp [heng]
        | ok u => simp [heng]

/-- Witness for the amended C9 on a concrete successful-normalization
filesystem and a concrete engine failure. -/
theorem c9_engine_failure_fatal_amended_witness :
    (processCoordinatesFile "/h" (fun _ => 0) "/in" c9Fs).2 =
      .ok "/h/.image_stitcher_processed/coordinates_processed_0.csv" ∧
    ((mainModel "/h" (fun _ => 0) "/in" c9Fs (.ok c9Params)
        (fun _ => .error ⟨"EngineError", "boom"⟩)).2 =
      ⟨1, some ("Error: " ++ "boom"), 1⟩ ∧
     ∀ (pr : Except PyExc StitchingParameters)
       (eng : StitchingParameters → Except PyExc Unit),
       (mainModel "/h" (fun _ => 0) "/in" c9Fs pr eng).2.engineRuns ≤ 1) :=
  ⟨rfl,
   c9_engine_failure_fatal_amended "/h" (fun _ => 0) "/in" c9Fs c9Params
     ⟨"EngineError", "boom"⟩
     "/h/.image_stitcher_processed/coordinates_processed_0.csv" rfl⟩
